import Mathlib

/-!
Shallow embedding of the kglab tutorial notebooks (ex01_2, ex01_5, ex01_7):
the RDF triple data they build, the PSL loading loops of ex01_7, the
string heuristics of ex01_5, and the file artifacts the notebooks exchange.
Pure Python string operations are modelled on `List Char`; graphs are lists
of (subject, predicate, object) string triples; the PSL calls issued by the
notebook are modelled as an explicit action trace.
-/

/-- Python-style test that `pat` matches at the head of `s`
(the first step of `str.replace` / the `in` containment scan). -/
def matchesAt : List Char → List Char → Bool
  | [], _ => true
  | _ :: _, [] => false
  | p :: ps, c :: cs => p = c && matchesAt ps cs

/-- Python `pat in s` substring containment on character lists. -/
def occursIn (pat : List Char) : List Char → Bool
  | [] => pat.isEmpty
  | c :: cs => matchesAt pat (c :: cs) || occursIn pat cs

/-- Recursion worker for `pyReplace`; `fuel` only bounds the recursion depth
and never runs out when it starts at the length of the scanned list. -/
def pyReplaceAux (pat repl : List Char) : Nat → List Char → List Char
  | _, [] => []
  | 0, s => s
  | fuel + 1, c :: cs =>
    if matchesAt pat (c :: cs) && !pat.isEmpty then
      repl ++ pyReplaceAux pat repl fuel (cs.drop (pat.length - 1))
    else
      c :: pyReplaceAux pat repl fuel cs

/-- Python `s.replace(pat, repl)` for a nonempty pattern: replace every
non-overlapping occurrence of `pat`, scanning left to right.  (For the empty
pattern this returns `s` unchanged; every call in the notebooks uses the fixed
nonempty pattern of `get_person_id`.) -/
def pyReplace (pat repl s : List Char) : List Char :=
  pyReplaceAux pat repl s.length s

/-- The URL stem used for person nodes in ex01_7. -/
def personBase : String := "http://example.org/stuff/person_"

/-- ex01_7 cell 18: `get_person_id(url)` strips the person URL stem via
`url.replace("http://example.org/stuff/person_", "")`. -/
def get_person_id (url : String) : String :=
  ⟨pyReplace personBase.toList [] url.toList⟩

/-- ex01_7 cell 26: the URL built for a person identifier read from the
targets file, `rdf.URIRef("http://example.org/stuff/person_" + p)`. -/
def personURL (p : String) : String := personBase ++ p

theorem matchesAt_append (pat l : List Char) : matchesAt pat (pat ++ l) = true := by
  induction pat with
  | nil => rfl
  | cons p ps ih => simp [matchesAt, ih]

theorem occursIn_cons_eq_false {pat : List Char} {c : Char} {cs : List Char}
    (h : occursIn pat (c :: cs) = false) :
    matchesAt pat (c :: cs) = false ∧ occursIn pat cs = false := by
  simpa [occursIn] using h

theorem pyReplaceAux_of_occursIn_eq_false {pat : List Char} (repl : List Char) :
    ∀ (l : List Char) (fuel : Nat), occursIn pat l = false → l.length ≤ fuel →
      pyReplaceAux pat repl fuel l = l := by
  intro l
  induction l with
  | nil => intro fuel _ _; cases fuel <;> rfl
  | cons c cs ih =>
    intro fuel h hlen
    obtain ⟨h1, h2⟩ := occursIn_cons_eq_false h
    cases fuel with
    | zero => simp at hlen
    | succ fuel =>
      have hlen' : cs.length ≤ fuel := by
        simp only [List.length_cons] at hlen
        omega
      rw [pyReplaceAux, h1]
      simp [ih fuel h2 hlen']

theorem pyReplace_strip {pat l : List Char} (repl : List Char) (hne : pat ≠ [])
    (h : occursIn pat l = false) : pyReplace pat repl (pat ++ l) = repl ++ l := by
  match pat, hne with
  | p :: ps, _ =>
    rw [pyReplace, List.cons_append, List.length_cons, pyReplaceAux]
    have hm : matchesAt (p :: ps) ((p :: ps) ++ l) = true := matchesAt_append _ _
    rw [List.cons_append] at hm
    simp only [hm, List.isEmpty_cons, Bool.not_false, Bool.and_true, if_true]
    have hdrop : (ps ++ l).drop ((p :: ps).length - 1) = l := by
      simp [List.drop_left]
    rw [hdrop, pyReplaceAux_of_occursIn_eq_false repl l _ h (by simp)]

/-- Claim C9: for every person-identifier string in which the stem
"http://example.org/stuff/person_" does not itself occur, `get_person_id`
applied to the URL built by the targets-loading loop returns the identifier:
the URL construction and `get_person_id` form a round trip. -/
theorem C9_person_id_round_trip (id : String)
    (h : occursIn personBase.toList id.toList = false) :
    get_person_id (personURL id) = id := by
  have hdata : (personURL id).toList = personBase.toList ++ id.toList := by
    have := String.congr_append personBase id
    simp only [personURL, this, String.toList]
  have hne : personBase.toList ≠ [] := by decide
  rw [get_person_id, hdata, pyReplace_strip [] hne h, List.nil_append]
  cases id
  rfl

/-- Witness for C9 at the concrete identifier "42". -/
theorem C9_person_id_round_trip_witness :
    occursIn personBase.toList "42".toList = false ∧
      get_person_id (personURL "42") = "42" :=
  ⟨by decide, C9_person_id_round_trip "42" (by decide)⟩

/-- An RDF triple (subject, predicate, object), each a URI or literal string. -/
abbrev Triple := String × String × String

/-- The in-memory RDF graph `kg._g`, modelled as the list of its triples. -/
abbrev Graph := List Triple

/-- The URI of `foaf:knows` under the ex01_7 namespace table. -/
def foafKnows : String := "http://xmlns.com/foaf/0.1/knows"

/-- The URI of `acq:wantsIntro` under the ex01_7 namespace table. -/
def acqWantsIntro : String := "http://example.org/stuff/wantsIntro"

/-- The three PSL data partitions used by ex01_7 (a convention of pslpython). -/
inductive PartitionT
  | OBSERVATIONS
  | TARGETS
  | TRUTH
deriving DecidableEq

/-- One observable action of the ex01_7 notebook: a kglab/pslpython library
call or an ad hoc print, in the order the cells issue them. -/
inductive Act
  | loadTTL (f : String)
  | saveTTL (f : String)
  | showVis (f : String)
  | addPredicate (pname : String) (closed : Bool) (size : Nat)
  | addRule (r : String)
  | clearData
  | runQuery (q : String)
  | addDataRow (pname : String) (part : PartitionT) (key : List String) (tv : Option ℚ)
  | openTargetsFile (f : String)
  | printUnknown (p1 p2 : String)
  | infer
  | compare
deriving DecidableEq

/-- The SPARQL query of ex01_7 cell 20 (Neighbors observations). -/
def neighborsQuery : String :=
  "\nSELECT DISTINCT ?p1 ?p2\n  WHERE \x7b\n      ?p1 foaf:based_near ?l .\n      ?p2 foaf:based_near ?l .\n  \x7d\n        "

/-- The SPARQL query of ex01_7 cell 22 (Likes observations). -/
def likesQuery : String :=
  "\nSELECT DISTINCT ?p1 ?p2\n  WHERE \x7b\n      ?p1 foaf:topic_interest ?t .\n      ?p2 foaf:topic_interest ?t .\n  \x7d\n        "

/-- The first SPARQL query of ex01_7 cell 28 (foaf:knows observations). -/
def knowsQuery : String :=
  "\nSELECT ?p1 ?p2\n  WHERE \x7b\n      ?p1 foaf:knows ?p2 .\n  \x7d\n  ORDER BY ?p1 ?p2\n        "

/-- The second SPARQL query of ex01_7 cell 28 (acq:wantsIntro observations). -/
def wantsIntroQuery : String :=
  "\nSELECT ?p1 ?p2\n  WHERE \x7b\n      ?p1 acq:wantsIntro ?p2 .\n  \x7d\n  ORDER BY ?p1 ?p2\n        "

/-- ex01_7 cells 20/22: one `add_data_row(Partition.OBSERVATIONS, [p1, p2])`
per query result row whose two stripped person ids differ. -/
def obsPairActs (pname : String) : List (String × String) → List Act
  | [] => []
  | r :: rs =>
    (let p1 := get_person_id r.1
     let p2 := get_person_id r.2
     if p1 ≠ p2 then [Act.addDataRow pname PartitionT.OBSERVATIONS [p1, p2] none]
     else []) ++ obsPairActs pname rs

/-- ex01_7 cell 26, body of the targets loop for one row (p1, p2): branch on
whether person_p1 foaf:knows person_p2 or person_p1 acq:wantsIntro person_p2
is in the graph; otherwise print UNKNOWN. -/
def targetRowActs (g : Graph) (p1 p2 : String) : List Act :=
  if (personURL p1, foafKnows, personURL p2) ∈ g then
    [Act.addDataRow "Knows" PartitionT.TRUTH [p1, p2] (some 1),
     Act.addDataRow "Knows" PartitionT.TARGETS [p1, p2] none]
  else if (personURL p1, acqWantsIntro, personURL p2) ∈ g then
    [Act.addDataRow "Knows" PartitionT.TRUTH [p1, p2] (some 0),
     Act.addDataRow "Knows" PartitionT.TARGETS [p1, p2] none]
  else
    [Act.printUnknown p1 p2]

/-- ex01_7 cell 26: the actions of the whole targets loop. -/
def targetsActs (g : Graph) : List (String × String) → List Act
  | [] => []
  | r :: rs => targetRowActs g r.1 r.2 ++ targetsActs g rs

/-- ex01_7 cell 28: one observation row with the given truth value per query
result row whose stripped id pair is not among the targets. -/
def knowsObsActs (targets : List (String × String)) (tv : ℚ) :
    List (String × String) → List Act
  | [] => []
  | r :: rs =>
    (let p1 := get_person_id r.1
     let p2 := get_person_id r.2
     if (p1, p2) ∈ targets then []
     else [Act.addDataRow "Knows" PartitionT.OBSERVATIONS [p1, p2] (some tv)])
      ++ knowsObsActs targets tv rs

/-- ex01_7 cells 4-20 before the first query results are consumed: load the
graph, visualize, save, declare the three predicates, add the six rules,
clear the predicate data, and run the Neighbors query. -/
def ex01_7_start : List Act :=
  [Act.loadTTL "acq.ttl", Act.showVis "tmp.html", Act.saveTTL "foo.ttl",
   Act.addPredicate "Neighbors" true 2, Act.addPredicate "Likes" true 2,
   Act.addPredicate "Knows" false 2,
   Act.addRule "20: Neighbors(P1, L) & Neighbors(P2, L) & (P1 != P2) -> Knows(P1, P2) ^2",
   Act.addRule "5: Neighbors(P1, L1) & Neighbors(P2, L2) & (P1 != P2) & (L1 != L2) -> !Knows(P1, P2) ^2",
   Act.addRule "10: Likes(P1, L) & Likes(P2, L) & (P1 != P2) -> Knows(P1, P2) ^2",
   Act.addRule "5: Knows(P1, P2) & Knows(P2, P3) & (P1 != P3) -> Knows(P1, P3) ^2",
   Act.addRule "5: !Knows(P1, P2) ^2",
   Act.addRule "Knows(P1, P2) = Knows(P2, P1) .",
   Act.clearData,
   Act.runQuery neighborsQuery]

/-- The full action trace of ex01_7, parametrized by the graph, the result
rows of the four SPARQL queries, and the parsed rows of the targets file. -/
def ex01_7_trace (g : Graph) (nRows lRows tRows kRows wRows : List (String × String)) :
    List Act :=
  ex01_7_start ++ obsPairActs "Neighbors" nRows
    ++ [Act.runQuery likesQuery] ++ obsPairActs "Likes" lRows
    ++ [Act.openTargetsFile "dat/psl/knows_targets.txt"] ++ targetsActs g tRows
    ++ [Act.runQuery knowsQuery] ++ knowsObsActs tRows 1 kRows
    ++ [Act.runQuery wantsIntroQuery] ++ knowsObsActs tRows 0 wRows
    ++ [Act.infer, Act.compare]

/-- The mutable state threaded through the targets loop of ex01_7 cell 26:
the `targets` list, the `rows_list` comparison table, the Knows predicate's
TRUTH and TARGETS partitions, and the printed output lines. -/
structure KnowsLoad where
  targets : List (String × String)
  rowsList : List (String × String × ℚ)
  truthPart : List (List String × ℚ)
  targetsPart : List (List String)
  out : List String
deriving DecidableEq

/-- The body of the targets loop of ex01_7 cell 26 for one row (p1, p2):
append to `targets`, then either record truth 1.0, truth 0.0, or print
"UNKNOWN p1 p2"; a total function (no exception escapes the body). -/
def knowsLoadStep (g : Graph) (st : KnowsLoad) (p1 p2 : String) : KnowsLoad :=
  let st1 : KnowsLoad := { st with targets := st.targets ++ [(p1, p2)] }
  if (personURL p1, foafKnows, personURL p2) ∈ g then
    { st1 with
      truthPart := st1.truthPart ++ [([p1, p2], 1)],
      targetsPart := st1.targetsPart ++ [[p1, p2]],
      rowsList := st1.rowsList ++ [(p1, p2, 1)] }
  else if (personURL p1, acqWantsIntro, personURL p2) ∈ g then
    { st1 with
      truthPart := st1.truthPart ++ [([p1, p2], 0)],
      targetsPart := st1.targetsPart ++ [[p1, p2]],
      rowsList := st1.rowsList ++ [(p1, p2, 0)] }
  else
    { st1 with out := st1.out ++ ["UNKNOWN " ++ p1 ++ " " ++ p2] }

/-- Claim C2: for a targets-file row (p1, p2) for which neither
(person_p1, foaf:knows, person_p2) nor (person_p1, acq:wantsIntro, person_p2)
is in the graph, the loop body returns normally (it is a total function, so
no exception is raised or propagated), prints "UNKNOWN p1 p2", and adds
nothing to the Knows TRUTH or TARGETS partitions nor to the rows_list
comparison table. -/
theorem C2_unknown_pair_prints (g : Graph) (st : KnowsLoad) (p1 p2 : String)
    (h1 : (personURL p1, foafKnows, personURL p2) ∉ g)
    (h2 : (personURL p1, acqWantsIntro, personURL p2) ∉ g) :
    knowsLoadStep g st p1 p2 =
      { st with
        targets := st.targets ++ [(p1, p2)],
        out := st.out ++ ["UNKNOWN " ++ p1 ++ " " ++ p2] } := by
  simp [knowsLoadStep, h1, h2]

/-- Witness for C2 on the empty graph and the row ("7", "8"). -/
theorem C2_unknown_pair_prints_witness :
    (personURL "7", foafKnows, personURL "8") ∉ ([] : Graph) ∧
      (personURL "7", acqWantsIntro, personURL "8") ∉ ([] : Graph) ∧
      knowsLoadStep [] ⟨[], [], [], [], []⟩ "7" "8" =
        ⟨[("7", "8")], [], [], [], ["UNKNOWN 7 8"]⟩ :=
  ⟨by decide, by decide, by
    rw [C2_unknown_pair_prints [] ⟨[], [], [], [], []⟩ "7" "8" (by decide) (by decide)]
    decide⟩

theorem knowsObsActs_mem_spec {targets : List (String × String)} {tv : ℚ}
    {pname : String} {part : PartitionT} {key : List String} {t : Option ℚ} :
    ∀ {rows : List (String × String)},
      Act.addDataRow pname part key t ∈ knowsObsActs targets tv rows →
      part = PartitionT.OBSERVATIONS ∧ ∃ q1 q2, key = [q1, q2] ∧ (q1, q2) ∉ targets := by
  intro rows
  induction rows with
  | nil => intro hmem; simp [knowsObsActs] at hmem
  | cons r rs ih =>
    intro hmem
    rw [knowsObsActs] at hmem
    rcases List.mem_append.mp hmem with hin | hin
    · by_cases hc : (get_person_id r.1, get_person_id r.2) ∈ targets
      · simp [hc] at hin
      · simp only [hc, if_neg, if_false, List.mem_singleton] at hin
        obtain ⟨hq, hpart, hkey, ht⟩ := by
          simpa using hin
        exact ⟨hpart, get_person_id r.1, get_person_id r.2, hkey, hc⟩
    · exact ih hin

/-- Claim C8: the targets-loop body adds a pair to the Knows TRUTH partition
iff it also adds it to the TARGETS partition in the same iteration, always
with truth value exactly 1.0 or 0.0; and every OBSERVATIONS row added by the
subsequent foaf:knows / acq:wantsIntro observation loops carries a pair that
is not recorded in the targets list. -/
theorem C8_truth_targets_coupling (g : Graph) (st : KnowsLoad) (p1 p2 : String)
    (targets : List (String × String)) (tv : ℚ) (rows : List (String × String))
    (pname : String) (part : PartitionT) (key : List String) (t : Option ℚ)
    (hmem : Act.addDataRow pname part key t ∈ knowsObsActs targets tv rows) :
    ((knowsLoadStep g st p1 p2).truthPart = st.truthPart ∧
        (knowsLoadStep g st p1 p2).targetsPart = st.targetsPart ∨
      ∃ v : ℚ, (v = 1 ∨ v = 0) ∧
        (knowsLoadStep g st p1 p2).truthPart = st.truthPart ++ [([p1, p2], v)] ∧
        (knowsLoadStep g st p1 p2).targetsPart = st.targetsPart ++ [[p1, p2]]) ∧
    part = PartitionT.OBSERVATIONS ∧
    (∃ q1 q2, key = [q1, q2] ∧ (q1, q2) ∉ targets) := by
  refine ⟨?_, knowsObsActs_mem_spec hmem⟩
  by_cases h1 : (personURL p1, foafKnows, personURL p2) ∈ g
  · exact Or.inr ⟨1, Or.inl rfl, by simp [knowsLoadStep, h1], by simp [knowsLoadStep, h1]⟩
  · by_cases h2 : (personURL p1, acqWantsIntro, personURL p2) ∈ g
    · exact Or.inr ⟨0, Or.inr rfl, by simp [knowsLoadStep, h1, h2],
        by simp [knowsLoadStep, h1, h2]⟩
    · exact Or.inl ⟨by simp [knowsLoadStep, h1, h2], by simp [knowsLoadStep, h1, h2]⟩

/-- Witness for C8 with an empty targets list, one observation row, and the
row ("7", "8") fed to the loading step. -/
theorem C8_truth_targets_coupling_witness :
    Act.addDataRow "Knows" PartitionT.OBSERVATIONS ["a", "b"] (some 1) ∈
        knowsObsActs [] 1 [("a", "b")] ∧
      (PartitionT.OBSERVATIONS = PartitionT.OBSERVATIONS ∧
        ∃ q1 q2, ["a", "b"] = [q1, q2] ∧ (q1, q2) ∉ ([] : List (String × String))) :=
  ⟨by decide,
    (C8_truth_targets_coupling [] ⟨[], [], [], [], []⟩ "7" "8" [] 1 [("a", "b")]
      "Knows" PartitionT.OBSERVATIONS ["a", "b"] (some 1) (by decide)).2⟩

/-- The arity discipline of claim C4, for one action of the trace: any data
row added has a two-identifier key, and any predicate declared has size 2. -/
def arityOK (act : Act) : Prop :=
  (∀ q part key t, act = Act.addDataRow q part key t → key.length = 2) ∧
  (∀ q c n, act = Act.addPredicate q c n → n = 2)

theorem arityOK_addDataRow_pair (q : String) (part : PartitionT) (p1 p2 : String)
    (t : Option ℚ) : arityOK (Act.addDataRow q part [p1, p2] t) := by
  constructor
  · intro q' part' key' t' h
    injection h with h1 h2 h3 h4
    rw [← h3]
    rfl
  · intro q' c n h
    cases h

theorem arityOK_of_mem_start {act : Act} (h : act ∈ ex01_7_start) : arityOK act := by
  simp only [ex01_7_start, List.mem_cons, List.not_mem_nil, or_false] at h
  rcases h with rfl | rfl | rfl | rfl | rfl | rfl | rfl | rfl | rfl | rfl | rfl | rfl | rfl | rfl
  all_goals
    refine ⟨fun q part key t hh => ?_, fun q c n hh => ?_⟩ <;>
      (cases hh <;> rfl)

theorem arityOK_of_mem_obsPairActs {pname : String} :
    ∀ {rows : List (String × String)} {act : Act},
      act ∈ obsPairActs pname rows → arityOK act := by
  intro rows
  induction rows with
  | nil => intro act h; simp [obsPairActs] at h
  | cons r rs ih =>
    intro act h
    rw [obsPairActs] at h
    rcases List.mem_append.mp h with hin | hin
    · by_cases hc : get_person_id r.1 ≠ get_person_id r.2
      · rw [if_pos hc, List.mem_singleton] at hin
        subst hin
        exact arityOK_addDataRow_pair _ _ _ _ _
      · rw [if_neg hc] at hin
        cases hin
    · exact ih hin

theorem arityOK_of_mem_targetRowActs {g : Graph} {p1 p2 : String} {act : Act}
    (h : act ∈ targetRowActs g p1 p2) : arityOK act := by
  by_cases h1 : (personURL p1, foafKnows, personURL p2) ∈ g
  · simp only [targetRowActs, h1, if_true, List.mem_cons, List.not_mem_nil, or_false] at h
    rcases h with rfl | rfl
    · exact arityOK_addDataRow_pair _ _ _ _ _
    · exact arityOK_addDataRow_pair _ _ _ _ _
  · by_cases h2 : (personURL p1, acqWantsIntro, personURL p2) ∈ g
    · simp only [targetRowActs, h1, h2, if_true, if_false, List.mem_cons,
        List.not_mem_nil, or_false] at h
      rcases h with rfl | rfl
      · exact arityOK_addDataRow_pair _ _ _ _ _
      · exact arityOK_addDataRow_pair _ _ _ _ _
    · simp only [targetRowActs, h1, h2, if_false, List.mem_singleton] at h
      subst h
      exact ⟨fun _ _ _ _ hh => Act.noConfusion hh, fun _ _ _ hh => Act.noConfusion hh⟩

theorem arityOK_of_mem_targetsActs {g : Graph} :
    ∀ {rows : List (String × String)} {act : Act},
      act ∈ targetsActs g rows → arityOK act := by
  intro rows
  induction rows with
  | nil => intro act h; simp [targetsActs] at h
  | cons r rs ih =>
    intro act h
    rw [targetsActs] at h
    rcases List.mem_append.mp h with hin | hin
    · exact arityOK_of_mem_targetRowActs hin
    · exact ih hin

theorem arityOK_of_mem_knowsObsActs {targets : List (String × String)} {tv : ℚ} :
    ∀ {rows : List (String × String)} {act : Act},
      act ∈ knowsObsActs targets tv rows → arityOK act := by
  intro rows
  induction rows with
  | nil => intro act h; simp [knowsObsActs] at h
  | cons r rs ih =>
    intro act h
    rw [knowsObsActs] at h
    rcases List.mem_append.mp h with hin | hin
    · by_cases hc : (get_person_id r.1, get_person_id r.2) ∈ targets
      · rw [if_pos hc] at hin
        cases hin
      · rw [if_neg hc, List.mem_singleton] at hin
        subst hin
        exact arityOK_addDataRow_pair _ _ _ _ _
    · exact ih hin

/-- Claim C4: in the full ex01_7 trace, every `add_data_row` call passes a key
of exactly two entity identifiers, and every predicate (Neighbors, Likes,
Knows) is declared with size 2 — no call ever passes a key of another arity. -/
theorem C4_predicate_arity_two (g : Graph)
    (nRows lRows tRows kRows wRows : List (String × String)) (act : Act)
    (hmem : act ∈ ex01_7_trace g nRows lRows tRows kRows wRows) :
    (∀ q part key t, act = Act.addDataRow q part key t → key.length = 2) ∧
    (∀ q c n, act = Act.addPredicate q c n → n = 2) := by
  simp only [ex01_7_trace, List.append_assoc, List.mem_append] at hmem
  rcases hmem with h | h | h | h | h | h | h | h | h | h | h
  · exact arityOK_of_mem_start h
  · exact arityOK_of_mem_obsPairActs h
  · rw [List.mem_singleton] at h
    subst h
    exact ⟨fun _ _ _ _ hh => Act.noConfusion hh, fun _ _ _ hh => Act.noConfusion hh⟩
  · exact arityOK_of_mem_obsPairActs h
  · rw [List.mem_singleton] at h
    subst h
    exact ⟨fun _ _ _ _ hh => Act.noConfusion hh, fun _ _ _ hh => Act.noConfusion hh⟩
  · exact arityOK_of_mem_targetsActs h
  · rw [List.mem_singleton] at h
    subst h
    exact ⟨fun _ _ _ _ hh => Act.noConfusion hh, fun _ _ _ hh => Act.noConfusion hh⟩
  · exact arityOK_of_mem_knowsObsActs h
  · rw [List.mem_singleton] at h
    subst h
    exact ⟨fun _ _ _ _ hh => Act.noConfusion hh, fun _ _ _ hh => Act.noConfusion hh⟩
  · exact arityOK_of_mem_knowsObsActs h
  · simp only [List.mem_cons, List.not_mem_nil, or_false] at h
    rcases h with rfl | rfl <;>
      exact ⟨fun _ _ _ _ hh => Act.noConfusion hh, fun _ _ _ hh => Act.noConfusion hh⟩

/-- Witness for C4 on a trace with one Neighbors query result row. -/
theorem C4_predicate_arity_two_witness :
    Act.addDataRow "Neighbors" PartitionT.OBSERVATIONS ["a", "b"] none ∈
        ex01_7_trace [] [("a", "b")] [] [] [] [] ∧
      (["a", "b"] : List String).length = 2 :=
  ⟨by decide,
    (C4_predicate_arity_two [] [("a", "b")] [] [] [] []
        (Act.addDataRow "Neighbors" PartitionT.OBSERVATIONS ["a", "b"] none)
        (by decide)).1 "Neighbors" PartitionT.OBSERVATIONS ["a", "b"] none rfl⟩

theorem mem_obsPairActs_of_mem {pname : String} {rows : List (String × String)}
    {r : String × String} (hr : r ∈ rows)
    (hne : get_person_id r.1 ≠ get_person_id r.2) :
    Act.addDataRow pname PartitionT.OBSERVATIONS
        [get_person_id r.1, get_person_id r.2] none ∈ obsPairActs pname rows := by
  induction rows with
  | nil => cases hr
  | cons x rs ih =>
    rw [obsPairActs, List.mem_append]
    rcases List.mem_cons.mp hr with h | h
    · subst h
      left
      rw [if_pos hne]
      exact List.mem_singleton.mpr rfl
    · right
      exact ih h

/-- Claim C1: the ex01_7 PSL workflow performs, in order: load the graph file
"acq.ttl", run the fixed Neighbors SPARQL query over it, pass a result row
into the external model's predicate tables, invoke the model's inference
call, and compare the returned probabilities against the expected truth
values. -/
theorem C1_workflow_order (g : Graph)
    (nRows lRows tRows kRows wRows : List (String × String)) (r : String × String)
    (hr : r ∈ nRows) (hne : get_person_id r.1 ≠ get_person_id r.2) :
    [Act.loadTTL "acq.ttl", Act.runQuery neighborsQuery,
        Act.addDataRow "Neighbors" PartitionT.OBSERVATIONS
          [get_person_id r.1, get_person_id r.2] none,
        Act.infer, Act.compare].Sublist
      (ex01_7_trace g nRows lRows tRows kRows wRows) := by
  have h1 : [Act.loadTTL "acq.ttl", Act.runQuery neighborsQuery].Sublist ex01_7_start := by
    decide
  have h2 : [Act.addDataRow "Neighbors" PartitionT.OBSERVATIONS
      [get_person_id r.1, get_person_id r.2] none].Sublist (obsPairActs "Neighbors" nRows) :=
    List.singleton_sublist.mpr (mem_obsPairActs_of_mem hr hne)
  have hrest : [Act.infer, Act.compare].Sublist
      ([Act.runQuery likesQuery] ++ (obsPairActs "Likes" lRows
        ++ ([Act.openTargetsFile "dat/psl/knows_targets.txt"] ++ (targetsActs g tRows
        ++ ([Act.runQuery knowsQuery] ++ (knowsObsActs tRows 1 kRows
        ++ ([Act.runQuery wantsIntroQuery] ++ (knowsObsActs tRows 0 wRows
        ++ [Act.infer, Act.compare])))))))) := by
    refine List.Sublist.trans ?_ (List.sublist_append_right _ _)
    refine List.Sublist.trans ?_ (List.sublist_append_right _ _)
    refine List.Sublist.trans ?_ (List.sublist_append_right _ _)
    refine List.Sublist.trans ?_ (List.sublist_append_right _ _)
    refine List.Sublist.trans ?_ (List.sublist_append_right _ _)
    refine List.Sublist.trans ?_ (List.sublist_append_right _ _)
    refine List.Sublist.trans ?_ (List.sublist_append_right _ _)
    refine List.Sublist.trans ?_ (List.sublist_append_right _ _)
    exact List.Sublist.refl _
  simp only [ex01_7_trace, List.append_assoc]
  exact List.Sublist.append h1 (List.Sublist.append h2 hrest)

/-- Witness for C1 on a trace with one Neighbors query result row. -/
theorem C1_workflow_order_witness :
    ("x", "y") ∈ [("x", "y")] ∧
      get_person_id "x" ≠ get_person_id "y" ∧
      [Act.loadTTL "acq.ttl", Act.runQuery neighborsQuery,
          Act.addDataRow "Neighbors" PartitionT.OBSERVATIONS
            [get_person_id "x", get_person_id "y"] none,
          Act.infer, Act.compare].Sublist
        (ex01_7_trace [] [("x", "y")] [] [] [] []) :=
  ⟨by decide, by decide,
    C1_workflow_order [] [("x", "y")] [] [] [] [] ("x", "y") (by decide) (by decide)⟩

/-- Decimal digit accumulation for `pyInt`; none on a non-digit character. -/
def parseDigits (acc : Nat) : List Char → Option Nat
  | [] => some acc
  | c :: cs =>
    if '0' ≤ c ∧ c ≤ '9' then parseDigits (acc * 10 + (c.toNat - '0'.toNat)) cs
    else none

/-- Python `int(s)` as applied to the person identifiers of ex01_7 cell 34:
an optional minus sign followed by at least one decimal digit; `none` models
the ValueError raised on any other shape. -/
def pyInt (s : String) : Option Int :=
  match s.toList with
  | [] => none
  | '-' :: cs =>
    if cs = [] then none else (parseDigits 0 cs).map (fun n => -(n : Int))
  | cs => (parseDigits 0 cs).map (fun n => (n : Int))

/-- The dictionary key `(int(p1), int(p2))` of ex01_7 cell 34; `none` models
the exception a non-numeric identifier would raise. -/
def rowKey (p1 p2 : String) : Option (Int × Int) :=
  match pyInt p1, pyInt p2 with
  | some a, some b => some (a, b)
  | _, _ => none

/-- First-match lookup in the dat_val association list; writes are consed to
the front, so the first match found is the most recent assignment, matching
Python dict semantics. -/
def dictFind : List ((Int × Int) × ℚ) → (Int × Int) → Option ℚ
  | [], _ => none
  | (k, v) :: rest, key => if key = k then some v else dictFind rest key

/-- ex01_7 cell 34, first loop, starting from the entries already written:
for each df_dat row (p1, p2, truth) set `dat_val[(int(p1), int(p2))] = truth`;
`none` models the exception raised when `int` fails. -/
def buildDatValFrom (acc : List ((Int × Int) × ℚ)) :
    List (String × String × ℚ) → Option (List ((Int × Int) × ℚ))
  | [] => some acc
  | (p1, p2, tr) :: rs =>
    match rowKey p1 p2 with
    | some k => buildDatValFrom ((k, tr) :: acc) rs
    | none => none

/-- ex01_7 cell 34: the dat_val dictionary built from all df_dat rows. -/
def build_dat_val (rows : List (String × String × ℚ)) :
    Option (List ((Int × Int) × ℚ)) :=
  buildDatValFrom [] rows

/-- ex01_7 cell 34, second loop, one df result row (p1, p2, truth):
`diff = row["truth"] - dat_val[(int(p1), int(p2))]`; `none` models the
ValueError or KeyError the row would raise. -/
def diffRow (d : List ((Int × Int) × ℚ)) (r : String × String × ℚ) : Option ℚ :=
  match rowKey r.1 r.2.1 with
  | none => none
  | some k =>
    match dictFind d k with
    | none => none
    | some dv => some (r.2.2 - dv)

/-- ex01_7 cell 38: a row is printed with a "??" line exactly when its diff
is strictly below -0.2. -/
def suspectRow (d : List ((Int × Int) × ℚ)) (r : String × String × ℚ) : Bool :=
  match diffRow d r with
  | some diff => decide (diff < -(2 / 10 : ℚ))
  | none => false

/-- Claim C3: for a result row for the target pair (p1, p2), the comparison
step computes diff as the inferred probability minus the truth value recorded
in dat_val under the dictionary key (int(p1), int(p2)), and the relation is
printed as suspect (a "??" line) exactly when that diff is strictly less
than -0.2. -/
theorem C3_diff_and_suspect (d : List ((Int × Int) × ℚ)) (p1 p2 : String)
    (tr dv : ℚ) (k : Int × Int)
    (hk : rowKey p1 p2 = some k) (hd : dictFind d k = some dv) :
    diffRow d (p1, p2, tr) = some (tr - dv) ∧
      (suspectRow d (p1, p2, tr) = true ↔ tr - dv < -(2 / 10 : ℚ)) := by
  have hdiff : diffRow d (p1, p2, tr) = some (tr - dv) := by
    simp only [diffRow, hk, hd]
  refine ⟨hdiff, ?_⟩
  simp [suspectRow, hdiff]

/-- Witness for C3 with dat_val = {(1, 2): 1} and the inferred row
("1", "2", 1/2), whose diff is -1/2 < -0.2. -/
theorem C3_diff_and_suspect_witness :
    rowKey "1" "2" = some (1, 2) ∧
      dictFind [((1, 2), 1)] (1, 2) = some 1 ∧
      diffRow [((1, 2), 1)] ("1", "2", 1 / 2) = some (1 / 2 - 1) ∧
      (suspectRow [((1, 2), 1)] ("1", "2", 1 / 2) = true ↔
        (1 / 2 : ℚ) - 1 < -(2 / 10 : ℚ)) :=
  ⟨by decide, by decide,
    (C3_diff_and_suspect [((1, 2), 1)] "1" "2" (1 / 2) 1 (1, 2)
      (by decide) (by decide)).1,
    (C3_diff_and_suspect [((1, 2), 1)] "1" "2" (1 / 2) 1 (1, 2)
      (by decide) (by decide)).2⟩

theorem matchesAt_iff {pat : List Char} :
    ∀ {s : List Char}, matchesAt pat s = true ↔ ∃ t, s = pat ++ t := by
  induction pat with
  | nil => intro s; simp [matchesAt]
  | cons p ps ih =>
    intro s
    cases s with
    | nil => simp [matchesAt]
    | cons c cs =>
      rw [matchesAt]
      simp only [Bool.and_eq_true, decide_eq_true_eq]
      constructor
      · rintro ⟨rfl, hm⟩
        obtain ⟨t, rfl⟩ := ih.mp hm
        exact ⟨t, rfl⟩
      · rintro ⟨t, ht⟩
        injection ht with h1 h2
        exact ⟨h1.symm, ih.mpr ⟨t, h2⟩⟩

theorem occursIn_iff {pat : List Char} :
    ∀ {l : List Char}, occursIn pat l = true ↔ ∃ l1 l2, l = l1 ++ pat ++ l2 := by
  intro l
  induction l with
  | nil =>
    rw [occursIn]
    constructor
    · intro h
      refine ⟨[], [], ?_⟩
      simp [List.isEmpty_iff.mp h]
    · rintro ⟨l1, l2, h⟩
      have h1 : l1 = [] ∧ pat = [] ∧ l2 = [] := by
        have := h.symm
        simp only [List.append_assoc, List.append_eq_nil] at this
        exact ⟨this.1, this.2.1, this.2.2⟩
      simp [h1.2.1]
  | cons c cs ih =>
    rw [occursIn, Bool.or_eq_true, matchesAt_iff, ih]
    constructor
    · rintro (⟨t, ht⟩ | ⟨l1, l2, hl⟩)
      · exact ⟨[], t, by simp [ht]⟩
      · exact ⟨c :: l1, l2, by simp [hl]⟩
    · rintro ⟨l1, l2, h⟩
      cases l1 with
      | nil =>
        left
        exact ⟨l2, by simpa using h⟩
      | cons d l1 =>
        right
        rw [List.cons_append, List.cons_append] at h
        injection h with h1 h2
        exact ⟨l1, l2, h2⟩

/-- The URI of `wtm:hasIngredient` under the ex01_5 namespace table. -/
def wtmHasIngredient : String := "http://purl.org/heals/food/hasIngredient"

/-- The URI of `ind:Butter` under the ex01_5 namespace table. -/
def indButter : String := "http://purl.org/heals/ingredient/Butter"

/-- The four noodle-ish substrings tested by ex01_5 cell 25. -/
def noodleWords : List String := ["noodle", "spaetzle", "dumpling", "pasta"]

/-- ex01_5 cell 25: `has_butter = (url, wtm:hasIngredient, ind:Butter) in kg._g`. -/
def has_butter (g : Graph) (url : String) : Bool :=
  decide ((url, wtmHasIngredient, indButter) ∈ g)

/-- ex01_5 cell 25:
`sez_noodle = any([x in recipe_name for x in ["noodle", "spaetzle", "dumpling", "pasta"]])`. -/
def sez_noodle (recipe_name : String) : Bool :=
  noodleWords.any (fun x => occursIn x.toList recipe_name.toList)

/-- Claim C5: in the recipe-annotation loop, has_butter is true exactly when
the triple (recipe URL, wtm:hasIngredient, ind:Butter) is in the graph, and
sez_noodle is true exactly when the recipe name contains at least one of the
substrings "noodle", "spaetzle", "dumpling", "pasta". -/
theorem C5_recipe_flags (g : Graph) (url recipe_name : String) :
    (has_butter g url = true ↔ (url, wtmHasIngredient, indButter) ∈ g) ∧
      (sez_noodle recipe_name = true ↔
        ∃ x ∈ noodleWords, ∃ l1 l2, recipe_name.toList = l1 ++ x.toList ++ l2) := by
  constructor
  · simp [has_butter]
  · rw [sez_noodle, List.any_eq_true]
    constructor
    · rintro ⟨x, hx, hocc⟩
      exact ⟨x, hx, occursIn_iff.mp hocc⟩
    · rintro ⟨x, hx, hocc⟩
      exact ⟨x, hx, occursIn_iff.mpr hocc⟩

/-- Split one line of the targets file at tab characters, as csv.reader with
delimiter "\t" behaves on the quoting-free lines of these files. -/
def splitTab : List Char → List (List Char)
  | [] => [[]]
  | c :: cs =>
    match splitTab cs with
    | [] => [[]]
    | f :: rest => if c = '\t' then [] :: f :: rest else (c :: f) :: rest

/-- Python tuple destructuring `p1, p2 = row`: succeeds exactly on two-field
rows; `none` models the ValueError raised on any other length. -/
def destructure2 (row : List (List Char)) : Option (List Char × List Char) :=
  match row with
  | [a, b] => some (a, b)
  | _ => none

/-- ex01_7 cell 26: feed every line of the targets file through csv.reader
with delimiter "\t" and destructure each row into (p1, p2); `none` models an
uncaught ValueError from some row. -/
def readTargets : List (List Char) → Option (List (List Char × List Char))
  | [] => some []
  | l :: ls =>
    match destructure2 (splitTab l), readTargets ls with
    | some p, some ps => some (p :: ps)
    | _, _ => none

/-- Claim C6: the PSL target file is parsed as a flat tab-delimited file and
every row is destructured into exactly two person-identifier fields; when
every line has exactly two tab-separated fields, this destructuring never
fails. -/
theorem C6_two_fields_never_fail (lines : List (List Char))
    (h : ∀ l ∈ lines, (splitTab l).length = 2) :
    ∃ ps, readTargets lines = some ps := by
  induction lines with
  | nil => exact ⟨[], rfl⟩
  | cons l ls ih =>
    obtain ⟨ps, hps⟩ := ih fun x hx => h x (List.mem_cons_of_mem l hx)
    obtain ⟨a, b, hab⟩ := List.length_eq_two.mp (h l (List.mem_cons_self l ls))
    exact ⟨(a, b) :: ps, by simp [readTargets, hab, destructure2, hps]⟩

/-- Witness for C6 on the two-line file "1\t2\n3\t4". -/
theorem C6_two_fields_never_fail_witness :
    (∀ l ∈ ["1\t2".toList, "3\t4".toList], (splitTab l).length = 2) ∧
      ∃ ps, readTargets ["1\t2".toList, "3\t4".toList] = some ps :=
  ⟨by decide, C6_two_fields_never_fail ["1\t2".toList, "3\t4".toList] (by decide)⟩

/-- Files ex01_2 writes: tmp.ttl, tmp.jsonld, tmp.parquet (cells 9-13). -/
def ex01_2_filesWritten : List String := ["tmp.ttl", "tmp.jsonld", "tmp.parquet"]

/-- Files ex01_2 loads as data: none (its graph is built in memory; cell 15
only stats the sizes of the files it just wrote itself). -/
def ex01_2_filesRead : List String := []

/-- Files ex01_5 writes: it re-saves tmp.ttl after annotation (cell 31). -/
def ex01_5_filesWritten : List String := ["tmp.ttl"]

/-- Files ex01_5 loads: tmp.ttl (cell 13) and nom.ttl (cell 21). -/
def ex01_5_filesRead : List String := ["tmp.ttl", "nom.ttl"]

/-- Files ex01_7 writes: foo.ttl (cell 8) and the tmp.html visualization. -/
def ex01_7_filesWritten : List String := ["foo.ttl", "tmp.html"]

/-- Files ex01_7 reads: acq.ttl (cell 4) and the PSL targets file (cell 26). -/
def ex01_7_filesRead : List String := ["acq.ttl", "dat/psl/knows_targets.txt"]

/-- Counterexample to claim C7 as stated: the file "tmp.ttl" is written by
ex01_2 and consumed (loaded) by ex01_5, so it is false that no state written
by one notebook is consumed or mutated by another. -/
theorem C7_shared_file_counterexample :
    ¬ ∀ f, f ∈ ex01_2_filesWritten → f ∉ ex01_5_filesRead := by
  intro h
  exact h "tmp.ttl" (by decide) (by decide)

/-- Amended claim C7: the only state written by one notebook and consumed by
another flows through the file "tmp.ttl", which ex01_2 writes and ex01_5
loads (and re-saves); every other cross-notebook written/read file
intersection is empty. -/
theorem C7_file_sharing_only_tmp_ttl :
    ex01_2_filesWritten.filter (fun f => decide (f ∈ ex01_5_filesRead)) = ["tmp.ttl"] ∧
      ex01_2_filesWritten.filter (fun f => decide (f ∈ ex01_7_filesRead)) = [] ∧
      ex01_5_filesWritten.filter (fun f => decide (f ∈ ex01_2_filesRead)) = [] ∧
      ex01_5_filesWritten.filter (fun f => decide (f ∈ ex01_7_filesRead)) = [] ∧
      ex01_7_filesWritten.filter (fun f => decide (f ∈ ex01_2_filesRead)) = [] ∧
      ex01_7_filesWritten.filter (fun f => decide (f ∈ ex01_5_filesRead)) = [] := by
  decide

/-- The URL stem used for recipe nodes in ex01_5 cell 31. -/
def recipeBase : String := "https://www.food.com/recipe/"

/-- The URI of rdf:type. -/
def rdfTypeURI : String := "http://www.w3.org/1999/02/22-rdf-syntax-ns#type"

/-- The URI of `nom:Noodle` under the ex01_5 namespace table. -/
def nomNoodle : String := "https://github.com/DerwenAI/kglab/wiki/Vocab#Noodle"

/-- The URI of `nom:Pancake` under the ex01_5 namespace table. -/
def nomPancake : String := "https://github.com/DerwenAI/kglab/wiki/Vocab#Pancake"

/-- ex01_5 cell 29: the hand-curated noodle recipe ids. -/
def noodle_ids : List String :=
  ["400", "86710", "331765", "508734", "320154", "220361", "148900", "317697",
   "252783", "137357", "1975", "31041", "441475", "261361", "124106", "78459",
   "358908", "103964", "91311", "497918", "328388"]

/-- ex01_5 cell 30: the hand-curated pancake recipe ids. -/
def pancake_ids : List String :=
  ["277824", "489", "4643", "272746", "12055", "124131", "40772", "459",
   "48178", "124176", "61108", "111008", "262038", "458", "440398", "157638"]

/-- ex01_5 cell 31: the rdf:type triples added by the two annotation loops,
one nom:Noodle triple per noodle id and one nom:Pancake triple per pancake
id, each at the recipe URL node built from the id. -/
def annotationTriples : List Triple :=
  noodle_ids.map (fun id => (recipeBase ++ id, rdfTypeURI, nomNoodle)) ++
    pancake_ids.map (fun id => (recipeBase ++ id, rdfTypeURI, nomPancake))

theorem append_cancel_string {a b c : String} (h : a ++ b = a ++ c) : b = c := by
  rw [String.congr_append a b, String.congr_append a c] at h
  have hd : a.data ++ b.data = a.data ++ c.data := congrArg String.data h
  exact congrArg String.mk (List.append_cancel_left hd)

/-- Claim C10: the hand-curated sets noodle_ids and pancake_ids are disjoint,
so the annotation loop never adds both a nom:Noodle and a nom:Pancake
rdf:type triple for the same recipe node. -/
theorem C10_no_double_annotation (t1 t2 : Triple)
    (h1 : t1 ∈ annotationTriples) (h2 : t2 ∈ annotationTriples)
    (hsame : t1.1 = t2.1) (hn : t1.2.2 = nomNoodle) :
    (∀ x ∈ noodle_ids, x ∉ pancake_ids) ∧ t2.2.2 ≠ nomPancake := by
  refine ⟨by decide, ?_⟩
  intro hp
  have hnp : nomNoodle ≠ nomPancake := by decide
  have hid1 : ∃ id ∈ noodle_ids, recipeBase ++ id = t1.1 := by
    rcases List.mem_append.mp h1 with h | h
    · obtain ⟨id, hid, heq⟩ := List.mem_map.mp h
      exact ⟨id, hid, congrArg Prod.fst heq⟩
    · obtain ⟨id, hid, heq⟩ := List.mem_map.mp h
      have h3 := congrArg (fun t : Triple => t.2.2) heq
      simp only at h3
      exact absurd (h3 ▸ hn ▸ rfl : nomNoodle = nomPancake).symm hnp.symm
  have hid2 : ∃ id ∈ pancake_ids, recipeBase ++ id = t2.1 := by
    rcases List.mem_append.mp h2 with h | h
    · obtain ⟨id, hid, heq⟩ := List.mem_map.mp h
      have h3 := congrArg (fun t : Triple => t.2.2) heq
      simp only at h3
      exact absurd (h3 ▸ hp ▸ rfl : nomPancake = nomNoodle) hnp.symm
    · obtain ⟨id, hid, heq⟩ := List.mem_map.mp h
      exact ⟨id, hid, congrArg Prod.fst heq⟩
  obtain ⟨id1, hmem1, heq1⟩ := hid1
  obtain ⟨id2, hmem2, heq2⟩ := hid2
  have heq : recipeBase ++ id1 = recipeBase ++ id2 := by
    rw [heq1, heq2, hsame]
  have hideq : id1 = id2 := append_cancel_string heq
  subst hideq
  have hdisj : ∀ x ∈ noodle_ids, x ∉ pancake_ids := by decide
  exact hdisj id1 hmem1 hmem2

/-- Witness for C10 at two concrete noodle triples with the same subject. -/
theorem C10_no_double_annotation_witness :
    (recipeBase ++ "400", rdfTypeURI, nomNoodle) ∈ annotationTriples ∧
      ((∀ x ∈ noodle_ids, x ∉ pancake_ids) ∧
        (nomNoodle : String) ≠ nomPancake) :=
  ⟨by decide,
    C10_no_double_annotation (recipeBase ++ "400", rdfTypeURI, nomNoodle)
      (recipeBase ++ "400", rdfTypeURI, nomNoodle) (by decide) (by decide) rfl rfl⟩
